import Mathlib

/-!
Shallow embedding of the validation (linting) engine of the `newdoc` tool
(`src/validation.rs`), together with theorems settling the frozen claims
about its specification.

Conventions of the embedding:
* Rust `&str` values are Lean `String`s; per-character work happens on
  `String.data : List Char`.
* Rust `str::lines()` is `rustLines`: split at `'\n'`, strip one trailing
  `'\r'` from every newline-terminated piece, and drop a final empty piece.
* Each regular expression from the source is embedded as an explicit
  executable matcher on a single line (all the rules involved in the claims
  are single-line rules); the derivations follow the backtracking semantics
  of the `regex` crate for the concrete pattern.
* Rust code that can panic (index underflow / out of bounds, `expect` on a
  missing capture group) is embedded in `Option`, with `none` standing for
  the panic.
-/

/-- Unicode `White_Space` test, matching Rust `char::is_whitespace` and the
`\s` class of the `regex` crate. -/
def isWS (c : Char) : Bool :=
  c = ' ' || c = '\t' || c = '\n' || c = '\x0b' || c = '\x0c' || c = '\r' ||
  c.val = 0x85 || c.val = 0xa0 || c.val = 0x1680 ||
  (0x2000 ≤ c.val && c.val ≤ 0x200a) ||
  c.val = 0x2028 || c.val = 0x2029 || c.val = 0x202f || c.val = 0x205f ||
  c.val = 0x3000

/-- POSIX `[[:alpha:]]` class (ASCII letters), as used by the `regex` crate. -/
def isAsciiAlpha (c : Char) : Bool :=
  ('a' ≤ c && c ≤ 'z') || ('A' ≤ c && c ≤ 'Z')

/-- POSIX `[[:alnum:]]` class (ASCII letters and digits). -/
def isAsciiAlnum (c : Char) : Bool :=
  isAsciiAlpha c || ('0' ≤ c && c ≤ '9')

/-- Split a character list at every `'\n'`; for `n` newlines the result has
`n + 1` pieces, the last one being the unterminated remainder. -/
def splitNL : List Char → List (List Char)
  | [] => [[]]
  | c :: rest =>
    if c = '\n' then [] :: splitNL rest
    else
      match splitNL rest with
      | [] => [[c]]
      | p :: ps => (c :: p) :: ps

/-- Drop one trailing `'\r'`, as Rust `lines()` does on newline-terminated
lines (a `\r\n` ending). -/
def stripCR (cs : List Char) : List Char :=
  if cs.getLast? = some '\r' then cs.dropLast else cs

/-- Embedding of Rust `str::lines()`. -/
def rustLines (s : String) : List String :=
  match s.data with
  | [] => []
  | cs =>
    let pieces := splitNL cs
    pieces.dropLast.map (fun p => String.mk (stripCR p)) ++
      (match pieces.getLast? with
       | some [] => []
       | some p => [String.mk p]
       | none => [])

/-- UTF-8 byte length of a string, matching Rust `str::bytes().len()`. -/
def utf8Len (s : String) : Nat :=
  (s.data.map Char.utf8Size).sum

/-- Embedding of Rust `str::starts_with` for string patterns. -/
def rustStartsWith (s pre : String) : Bool :=
  pre.data.isPrefixOf s.data

/-- Check whether the literal `lit` is a prefix of the character list `cs`. -/
def isPrefixL (lit : String) (cs : List Char) : Bool :=
  lit.data.isPrefixOf cs

/-- Substring test on character lists. -/
def containsSub (pat : List Char) : List Char → Bool
  | [] => pat.isPrefixOf []
  | cs@(_ :: rest) => pat.isPrefixOf cs || containsSub pat rest

/-- Embedding of Rust `str::contains` for string patterns. -/
def strContains (hay pat : String) : Bool :=
  containsSub pat.data hay.data

/-- Word count of Rust `str::split_whitespace().count()`: the number of
maximal runs of non-whitespace characters. -/
def countWordsAux : List Char → Bool → Nat
  | [], _ => 0
  | c :: rest, inWord =>
    if isWS c then countWordsAux rest false
    else (if inWord then 0 else 1) + countWordsAux rest true

/-- Number of whitespace-separated words in a string. -/
def wordCount (s : String) : Nat :=
  countWordsAux s.data false

/-- Severity of a reported issue (`IssueSeverity` in `src/validation.rs`). -/
inductive IssueSeverity
  | Information
  | Warning
  | Error
deriving DecidableEq, Repr

/-- One reported issue (`IssueReport` in `src/validation.rs`). -/
structure IssueReport where
  line_number : Option Nat
  description : String
  severity : IssueSeverity
deriving DecidableEq, Repr

/-- Document type (`ModuleType` in `src/module.rs`). -/
inductive ModuleType
  | Assembly
  | Concept
  | Procedure
  | Reference
deriving DecidableEq, Repr

/-- Either a resolved module type or the unresolved-type report
(`ModTypeOrReport` in `src/validation.rs`). -/
inductive ModTypeOrReport
  | Type : ModuleType → ModTypeOrReport
  | Report : IssueReport → ModTypeOrReport
deriving DecidableEq, Repr

/-- Matcher for the abstract-flag rule regex `^\[role="_abstract"\]`:
the line starts with the literal flag text. -/
def abstractFlagMatch (line : String) : Bool :=
  rustStartsWith line "[role=\"_abstract\"]"

/-- Helper for `paragraphMatch`: scan for an ASCII letter preceded only by
non-whitespace characters (at least one of which has been consumed). -/
def paragraphTail : List Char → Bool
  | [] => false
  | c :: rest => isAsciiAlpha c || (!isWS c && paragraphTail rest)

/-- Matcher for the paragraph regex `^\S+[[:alpha:]].*`: some split of the
line as a nonempty non-whitespace run followed by an ASCII letter. -/
def paragraphMatch (line : String) : Bool :=
  match line.data with
  | [] => false
  | c :: rest => !isWS c && paragraphTail rest

/-- Tail of the additional-resources heading regex: one of the three
accepted section names followed by optional whitespace and end of line. -/
def addResTail (cs : List Char) : Bool :=
  (isPrefixL "Additional resources" cs && (cs.drop 20).all isWS) ||
  (isPrefixL "Related information" cs && (cs.drop 19).all isWS) ||
  (isPrefixL "Additional information" cs && (cs.drop 22).all isWS)

/-- Matcher for the heading regex
`^(?:==\s+|\.)(?:Additional resources|Related information|Additional information)\s*$`
from `additional_resources::find_additional_resources`. -/
def addResHeadingMatch (line : String) : Bool :=
  match line.data with
  | '=' :: '=' :: rest =>
    (match rest with
     | c :: _ => isWS c && addResTail (rest.dropWhile isWS)
     | [] => false)
  | '.' :: rest => addResTail rest
  | _ => false

/-- Matcher for the ID regex `^\[id=\S+\]`: after the literal `[id=`, scan a
nonempty non-whitespace run followed by `]`. The flag records whether at
least one non-whitespace character has been consumed. -/
def modIdTail : List Char → Bool → Bool
  | [], _ => false
  | c :: rest, seen =>
    (seen && c = ']') || (!isWS c && modIdTail rest true)

/-- Matcher for the explicit-ID declaration regex `^\[id=\S+\]`. -/
def modIdMatch (line : String) : Bool :=
  match line.data with
  | '[' :: 'i' :: 'd' :: '=' :: rest => modIdTail rest false
  | _ => false

/-- Name characters of the attribute regex `\{((?:[[:alnum:]]|[-_])+)\}`. -/
def isNameChar (c : Char) : Bool :=
  isAsciiAlnum c || c = '-' || c = '_'

/-- Leftmost capture of the attribute regex `\{((?:[[:alnum:]]|[-_])+)\}`:
the name inside the first well-formed `{name}` reference, if any. -/
def firstAttribute : List Char → Option String
  | [] => none
  | c :: rest =>
    if c = '{' then
      match rest.takeWhile isNameChar, rest.dropWhile isNameChar with
      | _ :: _, d :: _ =>
        if d = '}' then some (String.mk (rest.takeWhile isNameChar))
        else firstAttribute rest
      | _, _ => firstAttribute rest
    else firstAttribute rest

/-- Matcher for the plain list-item alternative `^\*+\s+\S+` (also the shape
of `^\*+\s+(\S+.*)` in the item-length rule): a nonempty run of `*`, then
whitespace, then a non-whitespace character. -/
def plainBulletMatch (cs : List Char) : Bool :=
  match cs.takeWhile (fun c => c = '*'), cs.dropWhile (fun c => c = '*') with
  | _ :: _, c :: rest => isWS c && !((c :: rest).dropWhile isWS).isEmpty
  | _, _ => false

/-- Matcher for the bracketed part `\*+\s+\S+.*\]` of the inline-ifdef
list-item alternative: stars, whitespace, a non-whitespace character, and a
closing `]` somewhere after it. -/
def innerBullet (cs : List Char) : Bool :=
  match cs.takeWhile (fun c => c = '*'), cs.dropWhile (fun c => c = '*') with
  | _ :: _, c :: rest =>
    isWS c &&
      (match (c :: rest).dropWhile isWS with
       | [] => false
       | _ :: r3 => r3.contains ']')
  | _, _ => false

/-- Scan for the `\S+\[` part of `ifdef::\S+\[...`: a `[` preceded by a
nonempty all-non-whitespace run, with the rest accepted by `inner`. -/
def searchBracket (inner : List Char → Bool) : List Char → Bool → Bool
  | [], _ => false
  | c :: rest, seen =>
    (seen && c = '[' && inner rest) || (!isWS c && searchBracket inner rest true)

/-- Matcher for the inline-ifdef list-item alternative
`^ifdef::\S+\[\*+\s+\S+.*\]`. -/
def ifdefBulletMatch (cs : List Char) : Bool :=
  match cs with
  | 'i' :: 'f' :: 'd' :: 'e' :: 'f' :: ':' :: ':' :: rest =>
    searchBracket innerBullet rest false
  | _ => false

/-- Matcher for the list-item regex
`(?:^\*+\s+\S+|^ifdef::\S+\[\*+\s+\S+.*\])` from
`additional_resources::check_paragraphs_in_add_res`. -/
def bulletPointMatch (line : String) : Bool :=
  plainBulletMatch line.data || ifdefBulletMatch line.data

/-- Matcher for the allowed-paragraph regex
`^(?:ifdef::\S+\[.*]|endif::\[\]|//)`. -/
def allowedParagraphMatch (line : String) : Bool :=
  (match line.data with
   | 'i' :: 'f' :: 'd' :: 'e' :: 'f' :: ':' :: ':' :: rest =>
     searchBracket (fun r => r.contains ']') rest false
   | _ => false) ||
  rustStartsWith line "endif::[]" || rustStartsWith line "//"

/-- Matcher for the empty-line regex `^\s*$`. -/
def emptyLineMatch (line : String) : Bool :=
  line.data.all isWS

/-- Scan for the `\S+\[]` part of `link:\S+\[]`: a nonempty non-whitespace
run followed immediately by `[]`. -/
def linkTail : List Char → Bool → Bool
  | [], _ => false
  | c :: rest, seen =>
    (seen && c = '[' &&
      (match rest with
       | ']' :: _ => true
       | _ => false)) ||
    (!isWS c && linkTail rest true)

/-- Unanchored scan for the unlabeled-link regex `link:\S+\[]` from
`additional_resources::check_link_labels_in_add_res`. -/
def linkSearch : List Char → Bool
  | [] => false
  | cs@(_ :: rest) =>
    (match cs with
     | 'l' :: 'i' :: 'n' :: 'k' :: ':' :: r => linkTail r false
     | _ => false) ||
    linkSearch rest

/-- Matcher for the unlabeled-link regex `link:\S+\[]`. -/
def linkNoLabelMatch (line : String) : Bool :=
  linkSearch line.data

/-- Captures of the item-length regex
`^(?:\*+\s+(\S+.*)|ifdef::\S+\[\*+\s+(\S+.*)\])` under the leftmost-first
alternation of the `regex` crate: `some (some text)` when the plain
alternative matches (group 1 is the item text up to the end of the line),
`some none` when only the ifdef alternative matches (group 1 is absent; the
Rust code then panics on `expect`), `none` when the line does not match. -/
def lengthBulletCapture (line : String) : Option (Option String) :=
  if plainBulletMatch line.data then
    some (some (String.mk ((line.data.dropWhile (fun c => c = '*')).dropWhile isWS)))
  else if ifdefBulletMatch line.data then some none
  else none

/-- Matcher for the level-2-or-greater heading regex `^={2,}\s+\S.*` from
`SIMPLE_MODULE_TESTS` and `assembly::check_headings_in_assembly`. -/
def headingLineMatch (line : String) : Bool :=
  match line.data.takeWhile (fun c => c = '='), line.data.dropWhile (fun c => c = '=') with
  | _ :: _ :: _, c :: rest => isWS c && !((c :: rest).dropWhile isWS).isEmpty
  | _, _ => false

/-- Matcher for the assembly standard-heading regex
`^==\s+(?:Prerequisites|Additional resources|Related information)`. -/
def standardHeadingMatch (line : String) : Bool :=
  match line.data with
  | '=' :: '=' :: rest =>
    (match rest with
     | c :: _ =>
       isWS c &&
         (isPrefixL "Prerequisites" (rest.dropWhile isWS) ||
          isPrefixL "Additional resources" (rest.dropWhile isWS) ||
          isPrefixL "Related information" (rest.dropWhile isWS))
     | [] => false)
  | _ => false

/-- Tail of the metadata-variable regex after the literal `:_content-type:`:
optional whitespace and one of the five accepted type names. -/
def metadataTail (cs : List Char) : Bool :=
  isPrefixL "ASSEMBLY" (cs.dropWhile isWS) ||
  isPrefixL "PROCEDURE" (cs.dropWhile isWS) ||
  isPrefixL "CONCEPT" (cs.dropWhile isWS) ||
  isPrefixL "REFERENCE" (cs.dropWhile isWS) ||
  isPrefixL "SNIPPET" (cs.dropWhile isWS)

/-- Unanchored scan for the metadata-variable regex
`:_content-type:\s*(?:ASSEMBLY|PROCEDURE|CONCEPT|REFERENCE|SNIPPET)` from
`content::check_metadata_variable`. -/
def metadataSearch : List Char → Bool
  | [] => false
  | cs@(_ :: rest) =>
    (isPrefixL ":_content-type:" cs && metadataTail (cs.drop 15)) ||
    metadataSearch rest

/-- Matcher for the metadata-variable regex of
`content::check_metadata_variable`. -/
def metadataVarMatch (line : String) : Bool :=
  metadataSearch line.data

/-- Embedding of `find_first_occurrence` from `src/validation.rs`: the first
line (0-based index, with its text) whose text matches the given matcher. -/
def find_first_occurrence (p : String → Bool) (content : String) :
    Option (Nat × String) :=
  (rustLines content).enum.find? (fun x => p x.2)

/-- Embedding of `find_mod_id`: first line matching `^\[id=\S+\]`. -/
def find_mod_id (content : String) : Option (Nat × String) :=
  find_first_occurrence modIdMatch content

/-- Check of a single-line `IssueDefinition` (the `else` branch of
`IssueDefinition::check`): one finding per matching line, carrying the
0-based line index. -/
def singleLineCheck (p : String → Bool) (description : String)
    (severity : IssueSeverity) (content : String) : List IssueReport :=
  ((rustLines content).enum.filter (fun x => p x.2)).map
    (fun x => { line_number := some x.1, description := description, severity := severity })

/-- Ordered table of `(file-name prefix, content marker, module type)`
triples from `determine_mod_type`. -/
def mod_patterns : List (String × String × ModuleType) :=
  [("assembly", ":_content-type: ASSEMBLY", ModuleType.Assembly),
   ("con", ":_content-type: CONCEPT", ModuleType.Concept),
   ("proc", ":_content-type: PROCEDURE", ModuleType.Procedure),
   ("ref", ":_content-type: REFERENCE", ModuleType.Reference)]

/-- Loop of `determine_mod_type` over the pattern table: the first triple
whose prefix matches the base name or whose marker occurs in the content
decides the type. -/
def determine_mod_type_loop :
    List (String × String × ModuleType) → String → String → ModTypeOrReport
  | [], _, _ =>
    ModTypeOrReport.Report
      { line_number := none
        description := "Cannot determine the module type."
        severity := IssueSeverity.Error }
  | (pre, marker, t) :: rest, base_name, content =>
    if rustStartsWith base_name pre || strContains content marker then
      ModTypeOrReport.Type t
    else determine_mod_type_loop rest base_name content

/-- Embedding of `determine_mod_type` from `src/validation.rs`. -/
def determine_mod_type (base_name content : String) : ModTypeOrReport :=
  determine_mod_type_loop mod_patterns base_name content

/-- Embedding of `content::check_abstract_flag`. Note that the source reads
`content.lines().nth(line_no)` with the 0-based index `line_no` of the flag
line itself, so the line inspected by the paragraph test is the flag line. -/
def check_abstract_flag (content : String) : Option IssueReport :=
  match find_first_occurrence abstractFlagMatch content with
  | some (line_no, _) =>
    match (rustLines content).get? line_no with
    | some next_line =>
      if paragraphMatch next_line then none
      else
        some { line_number := some line_no
               description := "The _abstract flag is not immediately followed by a paragraph."
               severity := IssueSeverity.Error }
    | none =>
      some { line_number := some line_no
             description := "The _abstract flag is not immediately followed by a paragraph."
             severity := IssueSeverity.Error }
  | none =>
    some { line_number := none
           description := "The file is missing the _abstract flag. The flag is recommended but not required."
           severity := IssueSeverity.Warning }

/-- Embedding of `title::check_id_for_attributes`: report a missing ID, or
an Error when the first `{name}` reference captured in the ID line is not
`context`. -/
def check_id_for_attributes (content : String) : Option IssueReport :=
  match find_mod_id content with
  | none =>
    some { line_number := none
           description := "The file is missing an ID."
           severity := IssueSeverity.Error }
  | some (line_no, mod_id) =>
    match firstAttribute mod_id.data with
    | none => none
    | some name =>
      if name = "context" then none
      else
        some { line_number := some line_no
               description := "The ID includes an attribute."
               severity := IssueSeverity.Error }

/-- Embedding of `assembly::check_headings_in_assembly`: flag every
level-2-or-greater heading that is not on the standard-headings allow-list. -/
def check_headings_in_assembly (content : String) : List IssueReport :=
  ((rustLines content).enum.filter
      (fun x => headingLineMatch x.2 && !standardHeadingMatch x.2)).map
    (fun x =>
      { line_number := some x.1
        description := "This heading is level-2 or greater. Be conscious of the heading level."
        severity := IssueSeverity.Warning })

/-- Check of the level-2-or-greater heading rule of `SIMPLE_MODULE_TESTS`
(the module rule set has no allow-list). -/
def moduleHeadingCheck (content : String) : List IssueReport :=
  singleLineCheck headingLineMatch
    "This heading is level-2 or greater. Be conscious of the heading level."
    IssueSeverity.Warning content

/-- Embedding of `additional_resources::find_additional_resources`. -/
def find_additional_resources (content : String) : Option (Nat × String) :=
  find_first_occurrence addResHeadingMatch content

/-- Embedding of `additional_resources::check_add_res_flag`. The source
indexes `lines[heading_index - 1]`; when `heading_index` is `0` the `usize`
subtraction underflows and the indexing panics, which the embedding records
as `none`. -/
def check_add_res_flag (lines : List String) (heading_index : Nat) :
    Option (Option IssueReport) :=
  if heading_index = 0 then none
  else
    match lines.get? (heading_index - 1) with
    | none => none
    | some previous =>
      if previous = "[role=\"_additional-resources\"]" then some none
      else
        some (some
          { line_number := some heading_index
            description := "The additional resources heading is not immediately preceded by the _additional-resources flag."
            severity := IssueSeverity.Error })

/-- Loop of `additional_resources::check_paragraphs_in_add_res` over the
lines strictly after the heading; `offset` counts from `0` at the first such
line. -/
def paragraphsGo (heading_index : Nat) : List String → Nat → List IssueReport
  | [], _ =>
    [{ line_number := some heading_index
       description := "The additional resources section includes no list items."
       severity := IssueSeverity.Error }]
  | line :: rest, offset =>
    if bulletPointMatch line then []
    else if emptyLineMatch line then
      { line_number := some (heading_index + offset + 1)
        description := "The additional resources section includes an empty line."
        severity := IssueSeverity.Error } :: paragraphsGo heading_index rest (offset + 1)
    else if !allowedParagraphMatch line then
      { line_number := some (heading_index + offset + 1)
        description := "The additional resources section includes a plain paragraph."
        severity := IssueSeverity.Error } :: paragraphsGo heading_index rest (offset + 1)
    else paragraphsGo heading_index rest (offset + 1)

/-- Embedding of `additional_resources::check_paragraphs_in_add_res`. -/
def check_paragraphs_in_add_res (lines : List String) (heading_index : Nat) :
    List IssueReport :=
  paragraphsGo heading_index (lines.drop (heading_index + 1)) 0

/-- Embedding of `additional_resources::check_link_labels_in_add_res`. -/
def check_link_labels_in_add_res (lines : List String) (heading_index : Nat) :
    List IssueReport :=
  ((lines.drop (heading_index + 1)).enum.filter (fun x => linkNoLabelMatch x.2)).map
    (fun x =>
      { line_number := some (heading_index + x.1 + 1)
        description := "The additional resources section includes a link without a label."
        severity := IssueSeverity.Error })

/-- Loop of `additional_resources::check_additional_resource_length`. A line
whose only match of the item regex comes from the `ifdef` alternative leaves
capture group 1 empty, and the source panics on
`expect("Failed to extract text from a list item. This is a bug.")`; the
embedding records the panic as `none`. -/
def lengthGo (heading_index : Nat) : List String → Nat → Option (List IssueReport)
  | [], _ => some []
  | line :: rest, offset =>
    match lengthBulletCapture line with
    | none => lengthGo heading_index rest (offset + 1)
    | some none => none
    | some (some text) =>
      match lengthGo heading_index rest (offset + 1) with
      | none => none
      | some issues =>
        if wordCount text > 4 then
          some
            ({ line_number := some (heading_index + offset + 1)
               description := "The additional resource is long. Try to limit it to a couple of words."
               severity := IssueSeverity.Warning } :: issues)
        else some issues

/-- Embedding of `additional_resources::check_additional_resource_length`. -/
def check_additional_resource_length (lines : List String) (heading_index : Nat) :
    Option (List IssueReport) :=
  lengthGo heading_index (lines.drop (heading_index + 1)) 0

/-- Embedding of `additional_resources::check`: run the section checks in
source order when the heading is present, propagating a panic (`none`) of
either fallible check. The simple-test table of this module is empty. -/
def additional_resources_check (content : String) : Option (List IssueReport) :=
  match find_additional_resources content with
  | none => some []
  | some (index, _) =>
    let lines := rustLines content
    match check_add_res_flag lines index with
    | none => none
    | some flagIssue =>
      match check_additional_resource_length lines index with
      | none => none
      | some lengthIssues =>
        some (flagIssue.toList ++ check_paragraphs_in_add_res lines index ++
          check_link_labels_in_add_res lines index ++ lengthIssues)

/-- Embedding of the byte-counting loop inside `line_from_byte_no`: advance
the running total once per byte of the line, returning `none` on the first
total equal to `byte_no` (the early `return` of the source) and otherwise
the final total. -/
def bytesLoop (target : Nat) : Nat → Nat → Option Nat
  | 0, total => some total
  | n + 1, total =>
    if total + 1 = target then none
    else bytesLoop target n (total + 1)

/-- Embedding of the line loop of `line_from_byte_no`: one extra byte is
added for each line before its own bytes are counted. -/
def lineLoop (target : Nat) : List String → Nat → Nat → Option Nat
  | [], _, _ => none
  | l :: ls, idx, total =>
    match bytesLoop target (utf8Len l) (total + 1) with
    | none => some idx
    | some t => lineLoop target ls (idx + 1) t

/-- Embedding of `line_from_byte_no` from `src/validation.rs`. -/
def line_from_byte_no (content : String) (byte_no : Nat) : Option Nat :=
  lineLoop byte_no (rustLines content) 0 0

/-- Modelled from the spec (section 4.2), for comparison with
`line_from_byte_no`: convert a byte offset to the 0-based index of the line
containing it by walking lines and accumulating byte lengths, adding one
byte per line for the removed newline separator; `none` when the offset
falls outside the content. -/
def byte_offset_to_line_spec (byte_no : Nat) : List String → Nat → Nat → Option Nat
  | [], _, _ => none
  | l :: ls, idx, total =>
    if byte_no < total + utf8Len l + 1 then some idx
    else byte_offset_to_line_spec byte_no ls (idx + 1) (total + utf8Len l + 1)

/-- Spec-side byte-offset-to-line conversion on a whole content string. -/
def line_from_byte_no_spec (content : String) (byte_no : Nat) : Option Nat :=
  byte_offset_to_line_spec byte_no (rustLines content) 0 0

/-- Ordering on optional line numbers used by `report_issues`: Rust sorts
`Option<usize>` keys with `None` before every `Some`. -/
def optLe (a b : Option Nat) : Bool :=
  match a, b with
  | none, _ => true
  | some _, none => false
  | some m, some n => m ≤ n

/-- Sort relation of `report_issues` (`sort_by_key` on `line_number`). -/
def reportLe (a b : IssueReport) : Prop :=
  optLe a.line_number b.line_number = true

instance : DecidableRel reportLe := fun a b => by
  unfold reportLe
  infer_instance

instance : IsTotal IssueReport reportLe := by
  constructor
  intro a b
  unfold reportLe optLe
  rcases a.line_number with _ | m <;> rcases b.line_number with _ | n <;> simp
  omega

instance : IsTrans IssueReport reportLe := by
  constructor
  intro a b c
  unfold reportLe optLe
  rcases a.line_number with _ | m <;> rcases b.line_number with _ | n <;>
    rcases c.line_number with _ | k <;> simp
  omega

/-- Synthetic finding pushed by `report_issues` on an empty issue list. -/
def noIssuesReport : IssueReport :=
  { line_number := none
    description := "No issues found in this file."
    severity := IssueSeverity.Information }

/-- Embedding of `report_issues` from `src/validation.rs`: add the synthetic
no-issues finding when the list is empty, then stable-sort by line number
(`Vec::sort_by_key` is stable; a stable insertion sort produces the same
list). -/
def report_issues (issues : List IssueReport) : List IssueReport :=
  List.insertionSort reportLe (if issues.isEmpty then [noIssuesReport] else issues)

/-- Length of filtering an enumerated list by a predicate on the elements
equals the length of filtering the list itself. -/
theorem enumFrom_filter_snd_length {α : Type} (p : α → Bool) :
    ∀ (l : List α) (n : Nat),
      ((List.enumFrom n l).filter (fun x => p x.2)).length = (l.filter p).length := by
  intro l
  induction l with
  | nil => intro n; rfl
  | cons a t ih =>
    intro n
    rw [List.enumFrom_cons]
    cases hp : p a <;> simp [List.filter_cons, hp, ih]

/-- Filtering by a conjunction of predicates is filtering twice. -/
theorem filter_and_split {α : Type} (q r : α → Bool) (l : List α) :
    l.filter (fun a => q a && r a) = (l.filter q).filter r := by
  induction l with
  | nil => rfl
  | cons a t ih => cases hq : q a <;> cases hr : r a <;> simp [List.filter_cons, hq, hr, ih]

/-- Claim C1 (code bug): the per-file check can panic on document content.
With the additional-resources heading on the very first line of the file,
`check_add_res_flag` evaluates `lines[heading_index - 1]` with
`heading_index = 0` and panics; with a list item wrapped in an inline
`ifdef` directive, `check_additional_resource_length` panics on `expect`
because capture group 1 of its regex is absent. Both evaluations of the
embedded `additional_resources::check` end in the panic marker `none`
instead of a list of findings. -/
theorem additional_resources_check_panics :
    additional_resources_check ".Additional resources\n* The item" = none ∧
    additional_resources_check
      "x\n.Additional resources\nifdef::cond[* The program manual page reference]" = none := by
  decide

/-- Claim C2 counterexample: the file-name prefix is not authoritative. A
base name starting with the `proc` prefix together with content containing
the `ASSEMBLY` marker classifies as Assembly, not Procedure, because the
classifier tests `prefix || marker` per type in table order. -/
theorem determine_mod_type_prefix_not_authoritative :
    determine_mod_type "proc_intro.adoc" ":_content-type: ASSEMBLY" =
      ModTypeOrReport.Type ModuleType.Assembly ∧
    determine_mod_type "proc_intro.adoc" ":_content-type: ASSEMBLY" ≠
      ModTypeOrReport.Type ModuleType.Procedure := by
  decide

/-- Claim C2 (amended): classification walks the fixed table order
(assembly, con, proc, ref) and, for each type in turn, accepts it when the
base-name prefix matches or the content marker occurs; a prefix therefore
decides the type only when no earlier type's prefix or marker matched. -/
theorem determine_mod_type_fixed_order (base_name content : String) :
    (rustStartsWith base_name "assembly" = true →
      determine_mod_type base_name content = ModTypeOrReport.Type ModuleType.Assembly) ∧
    (rustStartsWith base_name "assembly" = false →
      strContains content ":_content-type: ASSEMBLY" = false →
      rustStartsWith base_name "con" = true →
      determine_mod_type base_name content = ModTypeOrReport.Type ModuleType.Concept) ∧
    (rustStartsWith base_name "assembly" = false →
      strContains content ":_content-type: ASSEMBLY" = false →
      rustStartsWith base_name "con" = false →
      strContains content ":_content-type: CONCEPT" = false →
      rustStartsWith base_name "proc" = true →
      determine_mod_type base_name content = ModTypeOrReport.Type ModuleType.Procedure) ∧
    (rustStartsWith base_name "assembly" = false →
      strContains content ":_content-type: ASSEMBLY" = false →
      rustStartsWith base_name "con" = false →
      strContains content ":_content-type: CONCEPT" = false →
      rustStartsWith base_name "proc" = false →
      strContains content ":_content-type: PROCEDURE" = false →
      rustStartsWith base_name "ref" = true →
      determine_mod_type base_name content = ModTypeOrReport.Type ModuleType.Reference) := by
  refine ⟨?_, ?_, ?_, ?_⟩ <;> intros <;>
    simp [determine_mod_type, determine_mod_type_loop, mod_patterns, *]

/-- Witness for claim C2 (amended): the `proc` prefix beats a marker of a
type that comes later in the table. -/
theorem determine_mod_type_fixed_order_witness :
    determine_mod_type "proc_intro.adoc" ":_content-type: REFERENCE" =
      ModTypeOrReport.Type ModuleType.Procedure :=
  (determine_mod_type_fixed_order "proc_intro.adoc" ":_content-type: REFERENCE").2.2.1
    (by decide) (by decide) (by decide) (by decide) (by decide)

/-- Claim C3 (code bug): the byte-offset-to-line conversion is off. On the
content `"abc\ndef"`, offset `0` lies on line 0 and offset `4` lies on line
1 (the spec-side conversion agrees), but the source function returns `none`
for offset `0` and `some 0` for offset `4`, because its running total adds
the per-line extra byte before the line's own bytes and compares with `==`
only after each byte. -/
theorem line_from_byte_no_inaccurate :
    line_from_byte_no "abc\ndef" 0 = none ∧
    line_from_byte_no_spec "abc\ndef" 0 = some 0 ∧
    line_from_byte_no "abc\ndef" 4 = some 0 ∧
    line_from_byte_no_spec "abc\ndef" 4 = some 1 := by
  decide

/-- Claim C4 (code bug): when the abstract flag is present, the source
inspects `content.lines().nth(line_no)` — the flag line itself, not the
following line — and the flag line always satisfies the paragraph regex, so
the "not immediately followed by a paragraph" Error is never emitted: not
when no line follows the flag, and not when a blank line follows it. The
missing-flag Warning branch behaves as claimed. -/
theorem check_abstract_flag_error_unreachable :
    check_abstract_flag "[role=\"_abstract\"]" = none ∧
    check_abstract_flag "[role=\"_abstract\"]\n\nSome text" = none ∧
    check_abstract_flag "Just text" =
      some { line_number := none
             description := "The file is missing the _abstract flag. The flag is recommended but not required."
             severity := IssueSeverity.Warning } := by
  decide

/-- Claim C5 counterexample: an ID line whose first embedded reference is
`\x7bcontext\x7d` but which also contains the reference `\x7bproduct\x7d`
yields no Finding, although the claim demands an Error for every
non-`context` reference. -/
theorem check_id_for_attributes_ignores_later_references :
    find_mod_id "[id=\"a_\x7bcontext\x7d_\x7bproduct\x7d\"]" =
      some (0, "[id=\"a_\x7bcontext\x7d_\x7bproduct\x7d\"]") ∧
    strContains "[id=\"a_\x7bcontext\x7d_\x7bproduct\x7d\"]" "\x7bproduct\x7d" = true ∧
    check_id_for_attributes "[id=\"a_\x7bcontext\x7d_\x7bproduct\x7d\"]" = none := by
  decide

/-- Claim C5 (amended): only the first embedded `\x7bname\x7d` reference of
the first explicit-ID line is inspected: if its name is `context` no
attribute Finding is emitted (regardless of later references), and if its
name differs from `context` exactly one Error Finding at that line is
emitted. -/
theorem check_id_for_attributes_first_reference (content : String) (i : Nat) (line : String)
    (hfind : find_mod_id content = some (i, line)) :
    (firstAttribute line.data = some "context" → check_id_for_attributes content = none) ∧
    (∀ name, firstAttribute line.data = some name → ¬ name = "context" →
      check_id_for_attributes content =
        some { line_number := some i
               description := "The ID includes an attribute."
               severity := IssueSeverity.Error }) := by
  unfold check_id_for_attributes
  rw [hfind]
  dsimp only
  constructor
  · intro h
    rw [h]
    simp
  · intro name h hne
    rw [h]
    simp [hne]

/-- Witness for claim C5 (amended): an ID whose first reference is
`\x7bproduct\x7d` gets exactly the Error Finding at its line. -/
theorem check_id_for_attributes_first_reference_witness :
    check_id_for_attributes "[id=\"intro_\x7bproduct\x7d\"]" =
      some { line_number := some 0
             description := "The ID includes an attribute."
             severity := IssueSeverity.Error } :=
  (check_id_for_attributes_first_reference "[id=\"intro_\x7bproduct\x7d\"]" 0
      "[id=\"intro_\x7bproduct\x7d\"]" (by decide)).2 "product" (by decide) (by decide)

/-- Claim C6 counterexample: a heading followed by three blank lines and one
list item produces three empty-line Error Findings, not exactly two. -/
theorem check_paragraphs_three_blank_lines_not_two :
    ¬ (((check_paragraphs_in_add_res
          (rustLines ".Additional resources\n\n\n\n* item") 0).filter
        (fun r => r.description ==
          "The additional resources section includes an empty line.")).length = 2) := by
  decide

/-- Claim C6 (amended): when the three lines after the additional-resources
heading are blank and the fourth is a list item, the body-shape scan
produces exactly three "includes an empty line" Error Findings (one per
blank line) and then halts at the list item, with no "no list items"
Finding. -/
theorem check_paragraphs_three_blank_lines (lines : List String) (i : Nat)
    (item : String) (rest : List String)
    (hdrop : lines.drop (i + 1) = "" :: "" :: "" :: item :: rest)
    (hitem : bulletPointMatch item = true) :
    check_paragraphs_in_add_res lines i =
      [{ line_number := some (i + 1)
         description := "The additional resources section includes an empty line."
         severity := IssueSeverity.Error },
       { line_number := some (i + 2)
         description := "The additional resources section includes an empty line."
         severity := IssueSeverity.Error },
       { line_number := some (i + 3)
         description := "The additional resources section includes an empty line."
         severity := IssueSeverity.Error }] := by
  have hb : bulletPointMatch "" = false := by decide
  have he : emptyLineMatch "" = true := by decide
  unfold check_paragraphs_in_add_res
  rw [hdrop]
  simp [paragraphsGo, hb, he, hitem]

/-- Witness for claim C6 (amended): the concrete document of the claim. -/
theorem check_paragraphs_three_blank_lines_witness :
    check_paragraphs_in_add_res (rustLines ".Additional resources\n\n\n\n* item") 0 =
      [{ line_number := some 1
         description := "The additional resources section includes an empty line."
         severity := IssueSeverity.Error },
       { line_number := some 2
         description := "The additional resources section includes an empty line."
         severity := IssueSeverity.Error },
       { line_number := some 3
         description := "The additional resources section includes an empty line."
         severity := IssueSeverity.Error }] :=
  check_paragraphs_three_blank_lines
    (rustLines ".Additional resources\n\n\n\n* item") 0 "* item" [] (by decide) (by decide)

/-- Relation holding between consecutive findings of a correctly ordered
report: either the earlier finding has no line number, or both findings
carry line numbers in non-decreasing order. -/
def noneFirstNondec (a b : IssueReport) : Prop :=
  a.line_number = none ∨
    ∃ m n, a.line_number = some m ∧ b.line_number = some n ∧ m ≤ n

/-- Claim C7: for every list of findings, the printed report is sorted by
line number in non-decreasing order, with every finding that has no line
number placed before all line-numbered findings. -/
theorem report_issues_sorted (issues : List IssueReport) :
    List.Pairwise noneFirstNondec (report_issues issues) := by
  have h := List.sorted_insertionSort reportLe
    (if issues.isEmpty then [noIssuesReport] else issues)
  refine List.Pairwise.imp ?_ h
  intro a b hab
  rcases ha : a.line_number with _ | m
  · exact Or.inl ha
  · rcases hb : b.line_number with _ | n
    · exfalso
      unfold reportLe optLe at hab
      rw [ha, hb] at hab
      simp at hab
    · refine Or.inr ⟨m, n, ha, hb, ?_⟩
      unfold reportLe optLe at hab
      rw [ha, hb] at hab
      simpa using hab

/-- Claim C8: a file with zero findings gets exactly the one synthetic
Information finding "No issues found in this file." with no line number,
and a file with at least one finding gets no synthetic finding — its report
is a permutation (a reordering) of its own findings. -/
theorem report_issues_no_findings_fallback (issues : List IssueReport) :
    (issues = [] → report_issues issues = [noIssuesReport]) ∧
    (issues ≠ [] → (report_issues issues).Perm issues) := by
  constructor
  · intro h
    subst h
    decide
  · intro h
    unfold report_issues
    have hne : issues.isEmpty = false := by
      cases issues with
      | nil => exact absurd rfl h
      | cons a t => rfl
    rw [hne]
    simp only [Bool.false_eq_true, if_false]
    exact List.perm_insertionSort reportLe issues

/-- Witness for claim C8: both branches at concrete inputs. -/
theorem report_issues_no_findings_fallback_witness :
    report_issues [] = [noIssuesReport] ∧
    (report_issues [noIssuesReport, noIssuesReport]).Perm [noIssuesReport, noIssuesReport] :=
  ⟨(report_issues_no_findings_fallback []).1 rfl,
   (report_issues_no_findings_fallback [noIssuesReport, noIssuesReport]).2 (by decide)⟩

/-- Claim C9: on a document whose level-2-or-greater heading lines are
exactly one `== Custom Heading` line and one `== Prerequisites` line, the
module heading rule emits two Warning findings (no allow-list), while the
assembly heading check emits exactly one (only `Custom Heading`, since
`Prerequisites` is on the assembly allow-list). -/
theorem module_assembly_heading_asymmetry (content : String)
    (h : (rustLines content).filter headingLineMatch =
           ["== Custom Heading", "== Prerequisites"] ∨
         (rustLines content).filter headingLineMatch =
           ["== Prerequisites", "== Custom Heading"]) :
    (moduleHeadingCheck content).length = 2 ∧
    (check_headings_in_assembly content).length = 1 := by
  have henum : (rustLines content).enum = List.enumFrom 0 (rustLines content) := rfl
  constructor
  · unfold moduleHeadingCheck singleLineCheck
    rw [List.length_map, henum, enumFrom_filter_snd_length]
    rcases h with h | h <;> rw [h] <;> decide
  · unfold check_headings_in_assembly
    rw [List.length_map, henum,
      enumFrom_filter_snd_length (fun l => headingLineMatch l && !standardHeadingMatch l),
      filter_and_split]
    rcases h with h | h <;> rw [h] <;> decide

/-- Witness for claim C9: a concrete document body with exactly those two
level-2 headings. -/
theorem module_assembly_heading_asymmetry_witness :
    (moduleHeadingCheck "= Title\n\n== Custom Heading\nbody\n== Prerequisites\n").length = 2 ∧
    (check_headings_in_assembly "= Title\n\n== Custom Heading\nbody\n== Prerequisites\n").length = 1 :=
  module_assembly_heading_asymmetry "= Title\n\n== Custom Heading\nbody\n== Prerequisites\n"
    (Or.inl (by decide))

/-- Claim C10: when the base name starts with none of the four prefixes and
the content contains none of the four type markers — as is the case for a
file declaring `:_content-type: SNIPPET` — classification returns the Error
Finding "Cannot determine the module type." with no line number, even
though the metadata-variable pattern of `check_metadata_variable` accepts
`SNIPPET` as a valid content-type value. -/
theorem determine_mod_type_snippet_unclassified (base_name content : String)
    (h1 : rustStartsWith base_name "assembly" = false)
    (h2 : strContains content ":_content-type: ASSEMBLY" = false)
    (h3 : rustStartsWith base_name "con" = false)
    (h4 : strContains content ":_content-type: CONCEPT" = false)
    (h5 : rustStartsWith base_name "proc" = false)
    (h6 : strContains content ":_content-type: PROCEDURE" = false)
    (h7 : rustStartsWith base_name "ref" = false)
    (h8 : strContains content ":_content-type: REFERENCE" = false) :
    determine_mod_type base_name content =
      ModTypeOrReport.Report
        { line_number := none
          description := "Cannot determine the module type."
          severity := IssueSeverity.Error } ∧
    find_first_occurrence metadataVarMatch ":_content-type: SNIPPET\n" =
      some (0, ":_content-type: SNIPPET") := by
  refine ⟨?_, by decide⟩
  simp [determine_mod_type, determine_mod_type_loop, mod_patterns,
    h1, h2, h3, h4, h5, h6, h7, h8]

/-- Witness for claim C10: a file named `foo.adoc` declaring the SNIPPET
content type stays unclassified. -/
theorem determine_mod_type_snippet_unclassified_witness :
    determine_mod_type "foo.adoc" ":_content-type: SNIPPET\n" =
      ModTypeOrReport.Report
        { line_number := none
          description := "Cannot determine the module type."
          severity := IssueSeverity.Error } ∧
    find_first_occurrence metadataVarMatch ":_content-type: SNIPPET\n" =
      some (0, ":_content-type: SNIPPET") :=
  determine_mod_type_snippet_unclassified "foo.adoc" ":_content-type: SNIPPET\n"
    (by decide) (by decide) (by decide) (by decide)
    (by decide) (by decide) (by decide) (by decide)
